import Mathlib

/-!
# Verification of the ElastiCache `ReplicationGroup` construct

A shallow embedding of `packages/@aws-cdk/aws-elasticache/lib/replication-group.ts`:
the `ReplicationGroup` constructor (child-resource creation, `validateNodeCount`,
the encryption-key check, and the `CfnReplicationGroup` property derivation) and
the static import adapter `fromReplicationGroupAttributes`.

TypeScript conventions are made explicit:
* optional fields (`T | undefined`) become `Option T`;
* `a ?? b` becomes `Option.getD`;
* `a || b` on `boolean | undefined` operands becomes `Bool` disjunction of
  `truthyBool`; on `number | undefined` operands the truthiness test is
  `truthyNum` (`undefined` and `0` are falsy); on `string` operands the empty
  string is falsy (`orString`);
* a thrown `Error` becomes `Except.error` carrying a `ValidationError` tag;
* child constructs registered in the owning scope (`new SubnetGroup(this, ...)`,
  `new ec2.SecurityGroup(this, ...)`) are recorded, in registration order, in the
  `children` trace of the construction result.

External collaborators (`ec2`, `kms`, `core`) are modelled at their interface
boundary only, as the spec prescribes: opaque handles carrying the identifier
strings the constructor reads.
-/

namespace ElastiCache

/-- TS truthiness of a `boolean | undefined` value: `undefined` and `false` are falsy. -/
def truthyBool (o : Option Bool) : Bool :=
  o.getD false

/-- TS truthiness of a `number | undefined` value: `undefined` and `0` are falsy. -/
def truthyNum (o : Option Int) : Bool :=
  match o with
  | none => false
  | some n => n != 0

/-- TS `a || b` for a `string | undefined` left operand: `undefined` and `""` are falsy. -/
def orString (o : Option String) (d : String) : String :=
  match o with
  | none => d
  | some s => if s = "" then d else s

/-- `core.RemovalPolicy`. -/
inductive RemovalPolicy where
  | destroy
  | retain
  | snapshot
deriving Repr, DecidableEq

/-- `ec2.IVpc`, reduced to the identifying handle the constructor passes through. -/
structure Vpc where
  vpcId : String := ""
deriving Repr, DecidableEq

/-- `ec2.SubnetType` (the constructor only uses `PRIVATE`). -/
inductive SubnetType where
  | PUBLIC
  | PRIVATE
  | ISOLATED
deriving Repr, DecidableEq

/-- `ec2.SubnetSelection`, reduced to the subnet-type policy the constructor sets. -/
structure SubnetSelection where
  subnetType : SubnetType
deriving Repr, DecidableEq

/-- `ec2.ISecurityGroup`: an opaque handle exposing `securityGroupId`. -/
structure SecurityGroup where
  securityGroupId : String
deriving Repr, DecidableEq

/-- `ec2.Port`; `Port.tcp(p)` yields a single-port TCP range. -/
structure Port where
  protocol : String
  fromPort : Int
  toPort : Int
deriving Repr, DecidableEq

def Port.tcp (p : Int) : Port :=
  { protocol := "tcp", fromPort := p, toPort := p }

/-- `ec2.Connections`, reduced to the two constructor arguments the code supplies.
An `undefined` securityGroups argument is treated as the empty list, as in ec2. -/
structure Connections where
  securityGroups : List SecurityGroup
  defaultPort : Option Port
deriving Repr, DecidableEq

/-- `kms.IKey`: an opaque handle exposing `keyArn`. -/
structure Key where
  keyArn : String
deriving Repr, DecidableEq

/-- `ISubnetGroup`: an opaque handle exposing `subnetGroupName`. -/
structure SubnetGroupRef where
  subnetGroupName : String
deriving Repr, DecidableEq

/-- `IParameterGroup`: an opaque handle exposing `parameterGroupName`. -/
structure ParameterGroupRef where
  parameterGroupName : String
deriving Repr, DecidableEq

/-- `ec2.InstanceType`, reduced to its canonical string form (`toString()`). -/
structure InstanceType where
  instanceTypeIdentifier : String
deriving Repr, DecidableEq

/-- `EngineVersion` enum from replication-group.ts. -/
inductive EngineVersion where
  | REDIS_5_0_5
  | REDIS_5_0_6
  | REDIS_6_X
deriving Repr, DecidableEq

/-- The string value of each `EngineVersion` enum member. -/
def EngineVersion.value : EngineVersion → String
  | .REDIS_5_0_5 => "5.0.5"
  | .REDIS_5_0_6 => "5.0.6"
  | .REDIS_6_X => "6.x"

/-- `Endpoint` from endpoint.ts (not included under src/).
Modelled from the spec: "two endpoints: primary read/write and reader read-only,
each an address+port pair" — a value object storing address and port verbatim. -/
structure Endpoint where
  address : String
  port : Int
deriving Repr, DecidableEq

/-- `ReplicationGroupProps` from replication-group.ts; every optional TS field is
an `Option`, the required `vpc` is plain. Numeric fields are `Int` (CDK numbers
used here are integers). -/
structure ReplicationGroupProps where
  replicationGroupName : Option String := none
  description : Option String := none
  engineVersion : Option EngineVersion := none
  parameterGroup : Option ParameterGroupRef := none
  numberOfNodeGroups : Option Int := none
  numberOfCacheClusters : Option Int := none
  replicasPerNodeGroup : Option Int := none
  multiAzEnabled : Option Bool := none
  automaticFailoverEnabled : Option Bool := none
  clusterModeEnabled : Option Bool := none
  nodeType : Option InstanceType := none
  port : Option Int := none
  atRestEncrypted : Option Bool := none
  encryptionKey : Option Key := none
  preferredMaintenanceWindow : Option String := none
  snapshotWindow : Option String := none
  snapshotRetentionLimit : Option Int := none
  vpc : Vpc := {}
  vpcSubnets : Option SubnetSelection := none
  securityGroups : Option (List SecurityGroup) := none
  subnetGroup : Option SubnetGroupRef := none
  removalPolicy : Option RemovalPolicy := none
  publiclyAccessible : Option Bool := none
deriving Repr, DecidableEq

/-- `ReplicationGroupAttributes` from replication-group.ts. -/
structure ReplicationGroupAttributes where
  securityGroups : Option (List SecurityGroup) := none
  replicationGroupId : String
  primaryEndpointAddress : String
  primaryEndpointPort : Int
  readerEndpointAddress : String
  readerEndpointPort : Int
deriving Repr, DecidableEq

/-- The handle produced by `ReplicationGroup.fromReplicationGroupAttributes`. -/
structure ImportedReplicationGroup where
  connections : Connections
  replicationGroupId : String
  primaryEndpoint : Endpoint
  readerEndpoint : Endpoint
deriving Repr, DecidableEq

/-- `ReplicationGroup.fromReplicationGroupAttributes`: builds the `Import` handle
directly from the supplied attributes; no checks, no child resources. -/
def fromReplicationGroupAttributes (attrs : ReplicationGroupAttributes) :
    ImportedReplicationGroup :=
  { connections :=
      { securityGroups := attrs.securityGroups.getD []
        defaultPort := some (Port.tcp attrs.primaryEndpointPort) }
    replicationGroupId := attrs.replicationGroupId
    primaryEndpoint := ⟨attrs.primaryEndpointAddress, attrs.primaryEndpointPort⟩
    readerEndpoint := ⟨attrs.readerEndpointAddress, attrs.readerEndpointPort⟩ }

/-- Tags for the `throw new Error(...)` sites of the constructor, in source order. -/
inductive ValidationError where
  /-- "Property NumCacheCluster cannot be defined along with Properties
  NumNodeGroups, ReplicasPerNodeGroup or NodeGroupConfiguration" -/
  | mutuallyExclusiveTopology
  /-- "multiAZEnabled must be true, if clusterModeEnabled." -/
  | multiAzRequiredForClusterMode
  /-- "Number of node groups must be >2 when cluster mode is enabled" -/
  | nodeGroupCountForClusterMode
  /-- "automaticFailoverEnabled must be true when clusterModeEnabled is true." -/
  | automaticFailoverForClusterMode
  /-- "Automatic Failover cannot be disabled for Multi-AZ enabled Replication Group" -/
  | automaticFailoverForMultiAz
  /-- "Must have at least one replica, if multiAZEnaled is true" -/
  | replicaRequiredForMultiAz
  /-- "Cannot set property encryptionKey without enabling encryption!" -/
  | encryptionKeyWithoutEncryption
deriving Repr, DecidableEq

/-- `ReplicationGroup.validateNodeCount`. The nested `if (props.clusterModeEnabled)`
block of the source is flattened into an if-chain with the cluster-mode guard
repeated on each of its three checks; evaluation order is preserved. -/
def validateNodeCount (props : ReplicationGroupProps) : Option ValidationError :=
  if truthyNum props.numberOfCacheClusters &&
      (truthyNum props.numberOfNodeGroups || truthyNum props.replicasPerNodeGroup) then
    some .mutuallyExclusiveTopology
  else if truthyBool props.clusterModeEnabled && (props.multiAzEnabled == some false) then
    some .multiAzRequiredForClusterMode
  else if truthyBool props.clusterModeEnabled && (props.numberOfNodeGroups == some 1) then
    some .nodeGroupCountForClusterMode
  else if truthyBool props.clusterModeEnabled &&
      (props.automaticFailoverEnabled == some false) then
    some .automaticFailoverForClusterMode
  else if truthyBool props.multiAzEnabled &&
      (props.automaticFailoverEnabled == some false) then
    some .automaticFailoverForMultiAz
  else if truthyBool props.multiAzEnabled &&
      (match props.replicasPerNodeGroup with
       | some r => decide (r < 1)
       | none => false) then
    some .replicaRequiredForMultiAz
  else
    none

/-- The property bag handed to `new CfnReplicationGroup(this, 'Resource', {...})`. -/
structure CfnReplicationGroupProps where
  replicationGroupDescription : String
  replicationGroupId : Option String
  securityGroupIds : List String
  cacheSubnetGroupName : String
  port : Option Int
  cacheParameterGroupName : Option String
  preferredMaintenanceWindow : Option String
  cacheNodeType : String
  engine : String
  engineVersion : Option String
  snapshotWindow : Option String
  snapshotRetentionLimit : Option Int
  automaticFailoverEnabled : Bool
  numCacheClusters : Option Int
  numNodeGroups : Int
  replicasPerNodeGroup : Int
  multiAzEnabled : Option Bool
  kmsKeyId : Option String
  atRestEncryptionEnabled : Bool
deriving Repr, DecidableEq

/-- A child construct registered in the owning scope, with the removal policy
explicitly applied to it at creation (`none` = no policy applied, the framework
default stands). -/
inductive ChildResource where
  | subnetGroup (description : String) (appliedRemovalPolicy : Option RemovalPolicy)
  | securityGroup (description : String) (appliedRemovalPolicy : Option RemovalPolicy)
deriving Repr, DecidableEq

/-- The removal policy explicitly applied to a child construct at creation. -/
def ChildResource.policy : ChildResource → Option RemovalPolicy
  | .subnetGroup _ p => p
  | .securityGroup _ p => p

/-- Whether a registered child is a security group. -/
def ChildResource.isSecurityGroup : ChildResource → Bool
  | .securityGroup _ _ => true
  | .subnetGroup _ _ => false

/-- Whether a registered child is a subnet group. -/
def ChildResource.isSubnetGroup : ChildResource → Bool
  | .subnetGroup _ _ => true
  | .securityGroup _ _ => false

/-- Successful construction: the `CfnReplicationGroup` property bag and the removal
policy applied to that resource (lines 420-422). The backend-assigned endpoint
attributes wrapped by the handle are deferred tokens, outside this model. -/
structure ReplicationGroupResult where
  resourceSpec : CfnReplicationGroupProps
  appliedRemovalPolicy : RemovalPolicy
deriving Repr, DecidableEq

deriving instance DecidableEq for Except

/-- Outcome of running the constructor: the children registered in the owning
scope, in registration order, up to the point construction finished or threw,
together with the result or the thrown error. -/
structure ConstructResult where
  children : List ChildResource
  result : Except ValidationError ReplicationGroupResult
deriving Repr, DecidableEq

/-- `cacheNodeInstanceType` from replication-group.ts. -/
def cacheNodeInstanceType (instanceType : InstanceType) : String :=
  "cache." ++ instanceType.instanceTypeIdentifier

/-- `ec2.InstanceType.of(ec2.InstanceClass.T3, ec2.InstanceSize.MICRO)`. -/
def defaultInstanceType : InstanceType :=
  { instanceTypeIdentifier := "t3.micro" }

/-- `const subnetGroup = props.subnetGroup ?? new SubnetGroup(this, 'Subnets', {...})`:
the subnet-group handle the constructor uses, paired with the child constructs
(none, or the freshly created default) this step registers in the owning scope.
The generated name stands in for the deferred token the framework assigns. -/
def resolvedSubnetGroup (id : String) (props : ReplicationGroupProps)
    (removalPolicy : RemovalPolicy) : SubnetGroupRef × List ChildResource :=
  match props.subnetGroup with
  | some sg => (sg, [])
  | none =>
    (⟨id ++ "/Subnets"⟩,
     [.subnetGroup ("Subnets for " ++ id ++ " ElastiCache Replication Group")
        (some removalPolicy)])

/-- `const securityGroups = props.securityGroups ?? [new ec2.SecurityGroup(this,
'SecurityGroup', {...})]`: the security-group list the constructor uses, paired
with the child constructs this step registers. The default group is created
without any removal policy applied. -/
def resolvedSecurityGroups (id : String) (props : ReplicationGroupProps) :
    List SecurityGroup × List ChildResource :=
  match props.securityGroups with
  | some sgs => (sgs, [])
  | none =>
    ([⟨id ++ "/SecurityGroup"⟩], [.securityGroup "ElastiCache SG" none])

/-- The property bag built for `new CfnReplicationGroup(this, 'Resource', {...})`
(lines 393-418), given the already-resolved vpc configuration. -/
def renderResourceSpec (props : ReplicationGroupProps) (subnetGroup : SubnetGroupRef)
    (securityGroups : List SecurityGroup) : CfnReplicationGroupProps :=
  -- const instanceType = props.nodeType || ec2.InstanceType.of(T3, MICRO);
  let instanceType := props.nodeType.getD defaultInstanceType
  { replicationGroupDescription :=
      orString props.description "CDK generated replication group"
    replicationGroupId := props.replicationGroupName
    securityGroupIds := securityGroups.map (fun sg => sg.securityGroupId)
    cacheSubnetGroupName := subnetGroup.subnetGroupName
    port := props.port
    cacheParameterGroupName :=
      props.parameterGroup.map (fun pg => pg.parameterGroupName)
    preferredMaintenanceWindow := props.preferredMaintenanceWindow
    cacheNodeType := cacheNodeInstanceType instanceType
    engine := "redis"
    engineVersion := props.engineVersion.map EngineVersion.value
    snapshotWindow := props.snapshotWindow
    snapshotRetentionLimit := props.snapshotRetentionLimit
    -- props.clusterModeEnabled || props.automaticFailoverEnabled || props.multiAzEnabled || false
    automaticFailoverEnabled :=
      truthyBool props.clusterModeEnabled ||
        truthyBool props.automaticFailoverEnabled ||
          truthyBool props.multiAzEnabled
    numCacheClusters := props.numberOfCacheClusters
    -- props.numberOfNodeGroups || props.clusterModeEnabled ? 2 : 1
    -- (TS precedence: this is (a || b) ? 2 : 1)
    numNodeGroups :=
      if truthyNum props.numberOfNodeGroups ||
          truthyBool props.clusterModeEnabled then 2 else 1
    -- props.replicasPerNodeGroup || props.multiAzEnabled ? 1 : 0
    replicasPerNodeGroup :=
      if truthyNum props.replicasPerNodeGroup ||
          truthyBool props.multiAzEnabled then 1 else 0
    multiAzEnabled := props.multiAzEnabled
    kmsKeyId := props.encryptionKey.map (fun k => k.keyArn)
    atRestEncryptionEnabled := props.atRestEncrypted.getD true }

/-- The `ReplicationGroup` constructor, step for step. -/
def construct (id : String) (props : ReplicationGroupProps) : ConstructResult :=
  -- const removalPolicy = props.removalPolicy ?? RemovalPolicy.DESTROY;
  let removalPolicy := props.removalPolicy.getD .destroy
  let subnetGroupPair := resolvedSubnetGroup id props removalPolicy
  let securityGroupsPair := resolvedSecurityGroups id props
  let children := subnetGroupPair.2 ++ securityGroupsPair.2
  -- this.validateNodeCount(props);
  match validateNodeCount props with
  | some e => { children := children, result := .error e }
  | none =>
    -- if (props.atRestEncrypted === false && props.encryptionKey !== undefined) throw ...
    if (props.atRestEncrypted == some false) && props.encryptionKey.isSome then
      { children := children, result := .error .encryptionKeyWithoutEncryption }
    else
      { children := children
        result := .ok
          { resourceSpec :=
              renderResourceSpec props subnetGroupPair.1 securityGroupsPair.1
            appliedRemovalPolicy := removalPolicy } }

/-- Whether construction threw. -/
def ConstructResult.isError (c : ConstructResult) : Bool :=
  match c.result with
  | .error _ => true
  | .ok _ => false

end ElastiCache

namespace ElastiCache

/-- The children registered in the owning scope are exactly those produced by the
two defaulting steps of lines 364-378, whatever the outcome of construction:
`validateNodeCount` runs only afterwards (line 385). -/
lemma construct_children (id : String) (props : ReplicationGroupProps) :
    (construct id props).children =
      (resolvedSubnetGroup id props (props.removalPolicy.getD .destroy)).2 ++
        (resolvedSecurityGroups id props).2 := by
  unfold construct
  cases hv : validateNodeCount props <;> simp
  split <;> simp

/-- If `validateNodeCount` succeeded and `automaticFailoverEnabled` is explicitly
false, neither `clusterModeEnabled` nor `multiAzEnabled` can be truthy (the
checks of lines 451-453 and 455-457 would have fired). -/
lemma validateNodeCount_none_no_afe_conflict (props : ReplicationGroupProps)
    (hv : validateNodeCount props = none)
    (hafe : props.automaticFailoverEnabled = some false) :
    truthyBool props.clusterModeEnabled = false ∧
    truthyBool props.multiAzEnabled = false := by
  unfold validateNodeCount at hv
  repeat' split at hv
  all_goals simp_all

/-- Construction does not throw only if `validateNodeCount` returned no error. -/
lemma construct_ok_validateNodeCount (id : String) (props : ReplicationGroupProps)
    (h : (construct id props).isError = false) :
    validateNodeCount props = none := by
  unfold construct ConstructResult.isError at h
  cases hv : validateNodeCount props <;> simp [hv] at h ⊢

/-- On success, the synthesized `automaticFailoverEnabled` is the disjunction of
the three truthy flags, exactly as line 410 computes it. -/
lemma construct_ok_afe (id : String) (props : ReplicationGroupProps)
    (h : (construct id props).isError = false) :
    ((construct id props).result.map fun r => r.resourceSpec.automaticFailoverEnabled) =
      Except.ok (truthyBool props.clusterModeEnabled ||
        truthyBool props.automaticFailoverEnabled || truthyBool props.multiAzEnabled) := by
  have hv := construct_ok_validateNodeCount id props h
  unfold construct ConstructResult.isError at h
  unfold construct
  simp only [hv] at h ⊢
  by_cases henc : ((props.atRestEncrypted == some false) && props.encryptionKey.isSome) = true
  · simp [henc] at h
  · simp [henc, Except.map, renderResourceSpec]

/-- The constructor surfaces the mutual-exclusion error exactly when the first
check of `validateNodeCount` fires: no earlier step can preempt it. -/
lemma construct_error_mutex_iff (id : String) (props : ReplicationGroupProps) :
    ((construct id props).result = Except.error ValidationError.mutuallyExclusiveTopology) ↔
      validateNodeCount props = some ValidationError.mutuallyExclusiveTopology := by
  unfold construct
  cases hv : validateNodeCount props <;> simp [hv]
  split <;> simp

/-- The first check of `validateNodeCount` fires exactly on its truthiness
condition (line 439). -/
lemma validateNodeCount_mutex_iff (props : ReplicationGroupProps) :
    validateNodeCount props = some ValidationError.mutuallyExclusiveTopology ↔
      (truthyNum props.numberOfCacheClusters &&
        (truthyNum props.numberOfNodeGroups || truthyNum props.replicasPerNodeGroup)) = true := by
  unfold validateNodeCount
  repeat' split
  all_goals simp_all

/-- On success with explicitly supplied security groups, the synthesized
security-group id list is the map of `securityGroupId` over the supplied list. -/
lemma construct_securityGroupIds (id : String) (props : ReplicationGroupProps)
    (sgs : List SecurityGroup) (hsg : props.securityGroups = some sgs) :
    ((construct id props).result.map fun r => r.resourceSpec.securityGroupIds) =
      ((construct id props).result.map fun _ => sgs.map fun sg => sg.securityGroupId) := by
  unfold construct
  cases hv : validateNodeCount props <;> simp [hv, Except.map]
  by_cases henc : props.atRestEncrypted = some false ∧ props.encryptionKey.isSome = true <;>
    simp [henc, Except.map, renderResourceSpec, resolvedSecurityGroups, hsg]

/-- C1: the claim says an explicitly supplied `numberOfNodeGroups` is preserved in
the resolved node-group count. The code (line 412) parses as
`(numberOfNodeGroups || clusterModeEnabled) ? 2 : 1`, so the explicit value 1 —
expressly sanctioned by the field's own documentation — resolves to 2. -/
theorem numNodeGroups_ignores_explicit_value :
    ((construct "rg" { numberOfNodeGroups := some 1 } : ConstructResult).result.map
      fun r => r.resourceSpec.numNodeGroups) = Except.ok 2 ∧ (2 : Int) ≠ 1 :=
  ⟨rfl, by decide⟩

/-- C2: the claim says an explicitly supplied `replicasPerNodeGroup` is preserved.
The code (line 413) parses as `(replicasPerNodeGroup || multiAzEnabled) ? 1 : 0`,
so the explicit value 3 — within the documented valid range 0 to 5 — resolves
to 1. -/
theorem replicasPerNodeGroup_ignores_explicit_value :
    ((construct "rg" { replicasPerNodeGroup := some 3 } : ConstructResult).result.map
      fun r => r.resourceSpec.replicasPerNodeGroup) = Except.ok 1 ∧ (1 : Int) ≠ 3 :=
  ⟨rfl, by decide⟩

/-- C3 counterexample: a spec violating the encryption-key rule raises its error,
yet both default child resources (the subnet group and the security group) have
already been registered in the owning scope — contradicting "nothing is created
and an error is raised before any child resource is registered". -/
theorem children_registered_despite_error :
    ((construct "rg" { atRestEncrypted := some false, encryptionKey := some ⟨"arn:aws:kms:c3"⟩ } : ConstructResult).isError = true) ∧
    ((construct "rg" { atRestEncrypted := some false, encryptionKey := some ⟨"arn:aws:kms:c3"⟩ } : ConstructResult).children.any
          ChildResource.isSubnetGroup = true) ∧
    ((construct "rg" { atRestEncrypted := some false, encryptionKey := some ⟨"arn:aws:kms:c3"⟩ } : ConstructResult).children.any
          ChildResource.isSecurityGroup = true) :=
  ⟨rfl, rfl, rfl⟩

/-- C3 amended: when construction raises a validation error, the default subnet
group and security group (for the fields not supplied) have already been
registered in the owning scope — child-resource creation precedes validation,
so partial construction is visible on error. -/
theorem children_precede_validation (id : String) (props : ReplicationGroupProps)
    (e : ValidationError) (_h : (construct id props).result = Except.error e) :
    (construct id props).children =
      (resolvedSubnetGroup id props (props.removalPolicy.getD .destroy)).2 ++
        (resolvedSecurityGroups id props).2 :=
  construct_children id props

/-- C3 amended, witness: a spec rejected by the mutual-exclusion check still
registers both default children. -/
theorem children_precede_validation_witness :
    (construct "rg" { numberOfCacheClusters := some 1, numberOfNodeGroups := some 2 } : ConstructResult).children =
      [ChildResource.subnetGroup "Subnets for rg ElastiCache Replication Group"
         (some RemovalPolicy.destroy),
       ChildResource.securityGroup "ElastiCache SG" none] :=
  children_precede_validation "rg" _ ValidationError.mutuallyExclusiveTopology rfl

/-- C4: whenever construction succeeds, the resolved `automaticFailoverEnabled`
equals the explicitly supplied value when one is provided, and otherwise equals
`clusterModeEnabled OR multiAzEnabled` (false when all three are absent). -/
theorem automaticFailover_resolution (id : String) (props : ReplicationGroupProps)
    (h : (construct id props).isError = false) :
    ((construct id props).result.map fun r => r.resourceSpec.automaticFailoverEnabled) =
      Except.ok (match props.automaticFailoverEnabled with
        | some b => b
        | none => truthyBool props.clusterModeEnabled || truthyBool props.multiAzEnabled) := by
  have hafe := construct_ok_afe id props h
  have hv := construct_ok_validateNodeCount id props h
  rw [hafe]
  cases heq : props.automaticFailoverEnabled with
  | none => simp [heq, truthyBool]
  | some b =>
    cases b with
    | true => simp [heq, truthyBool]
    | false =>
      obtain ⟨hcm, hmaz⟩ := validateNodeCount_none_no_afe_conflict props hv heq
      simp only [heq, hcm, hmaz]
      simp [truthyBool]

/-- C4 witness: an explicit `automaticFailoverEnabled = true` is preserved. -/
theorem automaticFailover_resolution_witness :
    ((construct "rg" { automaticFailoverEnabled := some true } : ConstructResult).result.map
      fun r => r.resourceSpec.automaticFailoverEnabled) = Except.ok true :=
  automaticFailover_resolution "rg" { automaticFailoverEnabled := some true } rfl

/-- C5 counterexample: `numberOfCacheClusters = 2` with `numberOfNodeGroups`
explicitly set to 0 does not raise the mutually-exclusive-topology error (the
check uses truthiness, and 0 is falsy) — construction succeeds outright,
refuting "including explicitly set to 0". -/
theorem mutualExclusion_not_raised_for_zero :
    (construct "rg" { numberOfCacheClusters := some 2, numberOfNodeGroups := some 0 } : ConstructResult).isError = false :=
  rfl

/-- C5 amended: construction fails with the mutually-exclusive-topology error
exactly when `numberOfCacheClusters` is set to a truthy (nonzero) value and at
least one of `numberOfNodeGroups` or `replicasPerNodeGroup` is set to a truthy
(nonzero) value; the check runs first, so its error takes precedence over every
other validation rule's error. -/
theorem mutualExclusion_error_iff_truthy (id : String) (props : ReplicationGroupProps) :
    ((construct id props).result = Except.error ValidationError.mutuallyExclusiveTopology) ↔
      (truthyNum props.numberOfCacheClusters &&
        (truthyNum props.numberOfNodeGroups || truthyNum props.replicasPerNodeGroup)) = true :=
  (construct_error_mutex_iff id props).trans (validateNodeCount_mutex_iff props)

/-- C5 amended, witness: nonzero `numberOfCacheClusters` together with nonzero
`replicasPerNodeGroup` does raise the mutual-exclusion error. -/
theorem mutualExclusion_error_iff_truthy_witness :
    (construct "rg" { numberOfCacheClusters := some 1, replicasPerNodeGroup := some 3 } : ConstructResult).result =
      Except.error ValidationError.mutuallyExclusiveTopology :=
  (mutualExclusion_error_iff_truthy "rg" _).mpr rfl

/-- C6: every spec with `atRestEncrypted` explicitly false and an encryption key
supplied makes construction throw, regardless of all other fields (either a
`validateNodeCount` error fires first, or the encryption check of lines 387-389
does). -/
theorem encryptionKey_requires_encryption (id : String) (props : ReplicationGroupProps)
    (h1 : props.atRestEncrypted = some false) (h2 : props.encryptionKey.isSome = true) :
    (construct id props).isError = true := by
  unfold construct ConstructResult.isError
  cases hv : validateNodeCount props <;> simp [hv, h1, h2]

/-- C6 witness: disabling encryption while supplying a key throws. -/
theorem encryptionKey_requires_encryption_witness :
    (construct "rg" { atRestEncrypted := some false, encryptionKey := some ⟨"arn:aws:kms:c6"⟩ } : ConstructResult).isError = true :=
  encryptionKey_requires_encryption "rg" _ rfl rfl

/-- C7: a spec supplying only `multiAzEnabled = true` resolves to
`numNodeGroups = 1`, `replicasPerNodeGroup = 1`, `automaticFailoverEnabled = true`,
and `multiAzEnabled` is carried through to the resource spec. -/
theorem multiAz_only_defaults :
    ((construct "rg" { multiAzEnabled := some true } : ConstructResult).result.map
      fun r => (r.resourceSpec.numNodeGroups, r.resourceSpec.replicasPerNodeGroup,
        r.resourceSpec.automaticFailoverEnabled, r.resourceSpec.multiAzEnabled)) =
      Except.ok (1, 1, true, some true) :=
  rfl

/-- C8: `fromReplicationGroupAttributes` performs no validation (it is a total
function of the attributes, including port 0) and the handle's id, endpoints and
default connection port reflect the supplied values verbatim. -/
theorem import_reflects_attributes_verbatim (attrs : ReplicationGroupAttributes) :
    (fromReplicationGroupAttributes attrs).replicationGroupId = attrs.replicationGroupId ∧
    (fromReplicationGroupAttributes attrs).primaryEndpoint =
      ⟨attrs.primaryEndpointAddress, attrs.primaryEndpointPort⟩ ∧
    (fromReplicationGroupAttributes attrs).readerEndpoint =
      ⟨attrs.readerEndpointAddress, attrs.readerEndpointPort⟩ ∧
    (fromReplicationGroupAttributes attrs).connections.defaultPort =
      some (Port.tcp attrs.primaryEndpointPort) :=
  ⟨rfl, rfl, rfl, rfl⟩

/-- C9 counterexample: with the removal policy configured to retain, the default
subnet group receives it but the default security group is created with no
removal policy applied — it does not inherit the configured policy. -/
theorem securityGroup_child_no_removal_policy :
    (((construct "rg" { removalPolicy := some RemovalPolicy.retain } : ConstructResult).children.map
      ChildResource.policy) = [some RemovalPolicy.retain, none]) ∧
    (none : Option RemovalPolicy) ≠ some RemovalPolicy.retain :=
  ⟨rfl, by decide⟩

/-- C9 amended: when neither a subnet group nor security groups are supplied, the
default subnet group inherits the configured removal policy (destroy when none
is configured), while the default security group is created without any removal
policy applied. -/
theorem default_children_removal_policies (id : String) (props : ReplicationGroupProps)
    (h1 : props.subnetGroup = none) (h2 : props.securityGroups = none) :
    ((construct id props).children.map ChildResource.policy) =
      [some (props.removalPolicy.getD RemovalPolicy.destroy), none] := by
  rw [construct_children]
  simp [resolvedSubnetGroup, resolvedSecurityGroups, h1, h2, ChildResource.policy]

/-- C9 amended, witness: with a snapshot policy configured, the subnet-group
child carries it and the security-group child carries none. -/
theorem default_children_removal_policies_witness :
    ((construct "rg" { removalPolicy := some RemovalPolicy.snapshot } : ConstructResult).children.map
      ChildResource.policy) = [some RemovalPolicy.snapshot, none] :=
  default_children_removal_policies "rg" _ rfl rfl

/-- C10: when `securityGroups` is supplied as an empty array, no default security
group is created and the synthesized security-group id list is empty, while the
subnet-group default is still governed by the absence-only rule (a default
subnet-group child exists exactly when `subnetGroup` is absent). -/
theorem empty_securityGroups_creates_no_default (id : String) (props : ReplicationGroupProps)
    (hsg : props.securityGroups = some ([] : List SecurityGroup)) :
    ((construct id props).children.any ChildResource.isSecurityGroup = false) ∧
    (((construct id props).result.map fun r => r.resourceSpec.securityGroupIds) =
      ((construct id props).result.map fun _ => ([] : List String))) ∧
    ((construct id props).children.any ChildResource.isSubnetGroup = props.subnetGroup.isNone) := by
  refine ⟨?_, ?_, ?_⟩
  · rw [construct_children]
    cases hsub : props.subnetGroup <;>
      simp [resolvedSubnetGroup, resolvedSecurityGroups, hsg, hsub,
        ChildResource.isSecurityGroup]
  · have := construct_securityGroupIds id props [] hsg
    simpa using this
  · rw [construct_children]
    cases hsub : props.subnetGroup <;>
      simp [resolvedSubnetGroup, resolvedSecurityGroups, hsg, hsub,
        ChildResource.isSubnetGroup, ChildResource.isSecurityGroup]

/-- C10 witness: an explicitly empty security-group list yields no security-group
child and an empty id list, while the absent subnet group still defaults. -/
theorem empty_securityGroups_creates_no_default_witness :
    ((construct "rg" { securityGroups := some [] } : ConstructResult).children.any
        ChildResource.isSecurityGroup = false) ∧
    (((construct "rg" { securityGroups := some [] } : ConstructResult).result.map
        fun r => r.resourceSpec.securityGroupIds) =
      ((construct "rg" { securityGroups := some [] } : ConstructResult).result.map
        fun _ => ([] : List String))) ∧
    ((construct "rg" { securityGroups := some [] } : ConstructResult).children.any
        ChildResource.isSubnetGroup = true) :=
  empty_securityGroups_creates_no_default "rg" { securityGroups := some [] } rfl

end ElastiCache
